import Mathlib

/-!
Verification of the projection engine of a browser-based financial modeling
calculator.  The engine is the pure function `calculateMetrics` together with
its helper stages (unit cost resolver, monthly series generator, annual
aggregator, marketing attribution, break-even locator, expense breakdown).

JavaScript numbers are modelled by `JNum`: a rational together with the three
IEEE special values `Infinity`, `-Infinity` and `NaN`, and the arithmetic
operations follow the JavaScript semantics on those special values
(for example `0 * Infinity = NaN`, `x / 0 = ±Infinity` for `x ≠ 0`,
`0 / 0 = NaN`, `Math.min(x, NaN) = NaN`, `NaN >= 0` is `false`).
Finite arithmetic is idealized as exact rational arithmetic; none of the
properties proved below depends on rounding.  The transcendental
`Math.pow(base, 1/12)` used for the monthly compounding rate is not
representable over ℚ and is threaded through as an explicit parameter
`powTwelfth : ℚ → JNum`; every theorem quantifying over it holds for every
interpretation of that operation.
-/

/-- Model of a JavaScript number: a finite rational or one of the IEEE
special values. -/
inductive JNum where
  | finite (q : ℚ)
  | inf
  | neginf
  | nan
  deriving DecidableEq, Repr

/-- JavaScript unary negation. -/
def jneg : JNum → JNum
  | .finite q => .finite (-q)
  | .inf => .neginf
  | .neginf => .inf
  | .nan => .nan

/-- JavaScript addition (`+`) on numbers. -/
def jadd : JNum → JNum → JNum
  | .nan, _ => .nan
  | _, .nan => .nan
  | .inf, .neginf => .nan
  | .neginf, .inf => .nan
  | .inf, _ => .inf
  | _, .inf => .inf
  | .neginf, _ => .neginf
  | _, .neginf => .neginf
  | .finite x, .finite y => .finite (x + y)

/-- JavaScript subtraction (`-`) on numbers. -/
def jsub (a b : JNum) : JNum := jadd a (jneg b)

/-- JavaScript multiplication (`*`) on numbers; note `0 * Infinity = NaN`. -/
def jmul : JNum → JNum → JNum
  | .nan, _ => .nan
  | _, .nan => .nan
  | .finite x, .finite y => .finite (x * y)
  | .inf, .finite y => if 0 < y then .inf else if y < 0 then .neginf else .nan
  | .finite x, .inf => if 0 < x then .inf else if x < 0 then .neginf else .nan
  | .neginf, .finite y => if 0 < y then .neginf else if y < 0 then .inf else .nan
  | .finite x, .neginf => if 0 < x then .neginf else if x < 0 then .inf else .nan
  | .inf, .inf => .inf
  | .inf, .neginf => .neginf
  | .neginf, .inf => .neginf
  | .neginf, .neginf => .inf

/-- JavaScript division (`/`) on numbers; `x / 0` is `±Infinity` for finite
`x ≠ 0` and `0 / 0 = NaN` (the model has no signed zero). -/
def jdiv : JNum → JNum → JNum
  | .nan, _ => .nan
  | _, .nan => .nan
  | .finite x, .finite y =>
      if y = 0 then (if 0 < x then .inf else if x < 0 then .neginf else .nan)
      else .finite (x / y)
  | .finite _, .inf => .finite 0
  | .finite _, .neginf => .finite 0
  | .inf, .finite y => if 0 ≤ y then .inf else .neginf
  | .neginf, .finite y => if 0 ≤ y then .neginf else .inf
  | .inf, .inf => .nan
  | .inf, .neginf => .nan
  | .neginf, .inf => .nan
  | .neginf, .neginf => .nan

/-- JavaScript `Math.min`; `NaN` propagates. -/
def jmin : JNum → JNum → JNum
  | .nan, _ => .nan
  | _, .nan => .nan
  | .neginf, _ => .neginf
  | _, .neginf => .neginf
  | .inf, b => b
  | a, .inf => a
  | .finite x, .finite y => .finite (min x y)

/-- JavaScript `Math.max`; `NaN` propagates. -/
def jmax : JNum → JNum → JNum
  | .nan, _ => .nan
  | _, .nan => .nan
  | .inf, _ => .inf
  | _, .inf => .inf
  | .neginf, b => b
  | a, .neginf => a
  | .finite x, .finite y => .finite (max x y)

/-- JavaScript comparison `x >= 0`; `false` on `NaN`. -/
def jge0 : JNum → Bool
  | .finite q => decide (0 ≤ q)
  | .inf => true
  | .neginf => false
  | .nan => false

/-- JavaScript comparison `x > 0`; `false` on `NaN`. -/
def jgt0 : JNum → Bool
  | .finite q => decide (0 < q)
  | .inf => true
  | .neginf => false
  | .nan => false

/-- JavaScript `isNaN`. -/
def jisNaN : JNum → Bool
  | .nan => true
  | _ => false

/-- JavaScript `Math.pow` restricted to natural exponents (the engine's annual
and per-month growth exponents); `x ^ 0 = 1` even for `NaN` base, as in
JavaScript. -/
def jpowNat : JNum → Nat → JNum
  | _, 0 => .finite 1
  | x, n + 1 => jmul (jpowNat x n) x

example : jdiv (.finite 1) (.finite 0) = JNum.inf := by decide
example : jdiv (.finite 0) (.finite 0) = JNum.nan := by decide
example : jmul JNum.neginf (.finite 0) = JNum.nan := by decide
example : jmin (.finite 0) JNum.nan = JNum.nan := by decide

/-! ## The assumption-set data model (`FinancialInputs` from the types file) -/

/-- A named custom per-unit cost (`CostItem`). -/
structure CostItem where
  name : String
  amount : ℚ
  deriving DecidableEq

/-- Per-channel traffic-source allocation (`TrafficSourceAllocation`). -/
structure TrafficSourceAllocation where
  percentage : ℚ
  cpc : ℚ
  conversionRate : ℚ
  deriving DecidableEq

/-- The `Record<TrafficSource, TrafficSourceAllocation>` of the five named
channels. -/
structure TrafficSources where
  meta : TrafficSourceAllocation
  google : TrafficSourceAllocation
  tiktok : TrafficSourceAllocation
  influencer : TrafficSourceAllocation
  retargeting : TrafficSourceAllocation
  deriving DecidableEq

/-- The marketing budget allocation sub-structure. -/
structure BudgetAllocation where
  totalBudget : ℚ
  sources : TrafficSources
  deriving DecidableEq

/-- The `marketing` sub-structure of the inputs. -/
structure MarketingInputs where
  paidAds : ℚ
  influencerBudget : ℚ
  contentBudget : ℚ
  acquisitionPercent : ℚ
  budgetAllocation : BudgetAllocation
  deriving DecidableEq

/-- A named custom monthly software cost. -/
structure SoftwareItem where
  name : String
  cost : ℚ
  deriving DecidableEq

/-- The `operational.software` sub-structure. -/
structure SoftwareInputs where
  shopify : ℚ
  klaviyo : ℚ
  quickbooks : ℚ
  tidio : ℚ
  customSoftware : List SoftwareItem
  deriving DecidableEq

/-- The `operational` sub-structure of the inputs. -/
structure OperationalInputs where
  labor : ℚ
  rentUtilities : ℚ
  officeExpenses : ℚ
  workTools : ℚ
  techFees : ℚ
  travel : ℚ
  software : SoftwareInputs
  deriving DecidableEq

/-- The fulfillment-mode selector (`'thirdParty' | 'inHouse'`). -/
inductive FulfillmentType where
  | thirdParty
  | inHouse
  deriving DecidableEq

/-- Inbound shipping cost sub-structure. -/
structure InboundShipping where
  containerCost : ℚ
  customsDuty : ℚ
  freightForwarding : ℚ
  portHandling : ℚ
  deriving DecidableEq

/-- Third-party fulfillment cost sub-structure. -/
structure ThirdPartyShipping where
  pickAndPack : ℚ
  storage : ℚ
  postage : ℚ
  deriving DecidableEq

/-- In-house fulfillment cost sub-structure. -/
structure InHouseShipping where
  labor : ℚ
  postage : ℚ
  warehouseRent : ℚ
  deriving DecidableEq

/-- The `shipping` sub-structure of the inputs. -/
structure ShippingInputs where
  fulfillmentType : FulfillmentType
  inbound : InboundShipping
  thirdParty : ThirdPartyShipping
  inHouse : InHouseShipping
  deriving DecidableEq

/-- The `costs` sub-structure: seven fixed per-unit cost fields plus the
open-ended custom-cost list. -/
structure CostsInputs where
  productBox : ℚ
  bottleSprayer : ℚ
  concentrate : ℚ
  nfcChip : ℚ
  printMaterials : ℚ
  shippingBox : ℚ
  manufacturingLabor : ℚ
  customCosts : List CostItem
  deriving DecidableEq

/-- The `misc` sub-structure of the inputs. -/
structure MiscInputs where
  paymentProcessingFee : ℚ
  taxRate : ℚ
  returnsRefundsPercent : ℚ
  monthlyChurnRate : ℚ
  legalCompliance : ℚ
  researchDevelopment : ℚ
  deriving DecidableEq

/-- The full assumption set (`FinancialInputs`). -/
structure FinancialInputs where
  modelName : String
  modelDescription : String
  pricePerUnit : ℚ
  unitsSoldYear1 : ℚ
  annualGrowthRate : ℚ
  initialInvestment : ℚ
  costs : CostsInputs
  marketing : MarketingInputs
  operational : OperationalInputs
  shipping : ShippingInputs
  misc : MiscInputs
  darkMode : Bool
  deriving DecidableEq

/-! ## Output records (`CalculatedMetrics` and friends) -/

/-- Marketing metrics record (`MarketingMetrics`). -/
structure MarketingMetrics where
  cac : JNum
  ltv : JNum
  monthlyChurn : JNum
  organicSales : JNum
  paidSales : JNum
  acquisitionSpend : JNum
  retentionSpend : JNum
  customerLifespan : JNum
  organicPercentage : JNum
  deriving DecidableEq

/-- The three parallel 60-month series returned by the monthly series
generator. -/
structure MonthlyData where
  revenue : List JNum
  cumulativeProfit : List JNum
  cashFlow : List JNum
  deriving DecidableEq

/-- The three parallel 5-year series returned by the annual aggregator. -/
structure AnnualMetrics where
  revenue : List JNum
  grossProfit : List JNum
  netProfit : List JNum
  deriving DecidableEq

/-- The `cogs` field of the output. -/
structure CogsInfo where
  perUnit : JNum
  total : JNum
  deriving DecidableEq

/-- The `margins` field of the output. -/
structure Margins where
  gross : JNum
  net : JNum
  deriving DecidableEq

/-- The five-category expense breakdown. -/
structure ExpenseBreakdown where
  productMaterials : JNum
  shipping : JNum
  marketing : JNum
  operational : JNum
  misc : JNum
  deriving DecidableEq

/-- The full output record (`CalculatedMetrics`). -/
structure CalculatedMetrics where
  revenue : List JNum
  grossProfit : List JNum
  netProfit : List JNum
  breakEvenMonth : Nat
  monthlyData : MonthlyData
  cogs : CogsInfo
  marketingMetrics : MarketingMetrics
  ltvCacRatio : JNum
  margins : Margins
  expenseBreakdown : ExpenseBreakdown
  deriving DecidableEq

/-! ## The projection engine (`calculateMetrics` and its stages) -/

/-- The constant `MONTHS_IN_YEAR = 12` as a rational. -/
def MONTHS_IN_YEAR : ℚ := 12

/-- Unit cost resolver, product part: sum of the seven fixed per-unit cost
fields plus the reduced custom-cost amounts
(`calculateProductMaterialsPerUnit`). -/
def calculateProductMaterialsPerUnit (inputs : FinancialInputs) : ℚ :=
  inputs.costs.productBox +
  inputs.costs.bottleSprayer +
  inputs.costs.concentrate +
  inputs.costs.nfcChip +
  inputs.costs.printMaterials +
  inputs.costs.shippingBox +
  inputs.costs.manufacturingLabor +
  inputs.costs.customCosts.foldl (fun sum cost => sum + cost.amount) 0

/-- Unit cost resolver, shipping part (`calculateShippingCostsPerUnit`):
inbound cost over the fixed 5000-unit container plus the mode-dependent
outbound cost.  The in-house branch divides `warehouseRent` by the monthly
unit volume with no guard, exactly as the source does. -/
def calculateShippingCostsPerUnit (inputs : FinancialInputs) : JNum :=
  let monthlyUnits : ℚ := inputs.unitsSoldYear1 / MONTHS_IN_YEAR
  let unitsPerContainer : ℚ := 5000
  let inboundCosts : ℚ :=
    inputs.shipping.inbound.containerCost / unitsPerContainer +
    inputs.pricePerUnit * (inputs.shipping.inbound.customsDuty / 100) +
    inputs.shipping.inbound.freightForwarding / unitsPerContainer +
    inputs.shipping.inbound.portHandling / unitsPerContainer
  let outboundCosts : JNum :=
    match inputs.shipping.fulfillmentType with
    | .thirdParty =>
        .finite (inputs.shipping.thirdParty.pickAndPack +
                 inputs.shipping.thirdParty.storage +
                 inputs.shipping.thirdParty.postage)
    | .inHouse =>
        jadd (.finite (inputs.shipping.inHouse.labor +
                       inputs.shipping.inHouse.postage))
             (jdiv (.finite inputs.shipping.inHouse.warehouseRent)
                   (.finite monthlyUnits))
  jadd (.finite inboundCosts) outboundCosts

/-- COGS per unit as computed at the top of `calculateMetrics`
(line `cogsPerUnit = productMaterialsPerUnit + shippingCostsPerUnit`). -/
def cogsPerUnitOf (inputs : FinancialInputs) : JNum :=
  jadd (.finite (calculateProductMaterialsPerUnit inputs))
       (calculateShippingCostsPerUnit inputs)

/-- Monthly fixed costs of the monthly series generator: the six operational
annual fields plus legal and R&D, each divided by 12. -/
def monthlyFixedCosts (inputs : FinancialInputs) : ℚ :=
  inputs.operational.labor / 12 +
  inputs.operational.rentUtilities / 12 +
  inputs.operational.officeExpenses / 12 +
  inputs.operational.workTools / 12 +
  inputs.operational.techFees / 12 +
  inputs.operational.travel / 12 +
  inputs.misc.legalCompliance / 12 +
  inputs.misc.researchDevelopment / 12

/-- Monthly software costs: the four fixed subscriptions plus the reduced
custom software costs. -/
def monthlySoftwareCosts (inputs : FinancialInputs) : ℚ :=
  inputs.operational.software.shopify +
  inputs.operational.software.klaviyo +
  inputs.operational.software.quickbooks +
  SoftwareInputs.tidio inputs.operational.software +
  inputs.operational.software.customSoftware.foldl
    (fun sum software => sum + software.cost) 0

/-- The monthly growth rate `Math.pow(1 + annualGrowthRate/100, 1/12) - 1`,
parametrized by the model `powTwelfth` of `Math.pow(·, 1/12)`. -/
def monthlyGrowthRate (powTwelfth : ℚ → JNum) (inputs : FinancialInputs) : JNum :=
  jsub (powTwelfth (1 + inputs.annualGrowthRate / 100)) (.finite 1)

/-- Units sold in a given month of the monthly series:
`baseMonthlyUnits * Math.pow(1 + monthlyGrowthRate, month)`. -/
def monthlyUnitsAt (powTwelfth : ℚ → JNum) (inputs : FinancialInputs)
    (month : Nat) : JNum :=
  jmul (.finite (inputs.unitsSoldYear1 / MONTHS_IN_YEAR))
       (jpowNat (jadd (.finite 1) (monthlyGrowthRate powTwelfth inputs)) month)

/-- Revenue of a given month of the monthly series. -/
def monthlyRevenueAt (powTwelfth : ℚ → JNum) (inputs : FinancialInputs)
    (month : Nat) : JNum :=
  jmul (monthlyUnitsAt powTwelfth inputs month) (.finite inputs.pricePerUnit)

/-- Profit of a given month of the monthly series: revenue minus COGS,
processing fees, returns, fixed costs, software and the flat marketing
budget. -/
def monthlyProfitAt (powTwelfth : ℚ → JNum) (inputs : FinancialInputs)
    (cogsPerUnit : JNum) (month : Nat) : JNum :=
  let revenue := monthlyRevenueAt powTwelfth inputs month
  let cogs := jmul (monthlyUnitsAt powTwelfth inputs month) cogsPerUnit
  let processingFees := jmul revenue (.finite (inputs.misc.paymentProcessingFee / 100))
  let returnsRefunds := jmul revenue (.finite (inputs.misc.returnsRefundsPercent / 100))
  let totalMonthlyExpenses :=
    jadd (jadd (jadd (jadd (jadd cogs processingFees) returnsRefunds)
                     (.finite (monthlyFixedCosts inputs)))
               (.finite (monthlySoftwareCosts inputs)))
         (.finite inputs.marketing.budgetAllocation.totalBudget)
  jsub revenue totalMonthlyExpenses

/-- Running accumulation of the cumulative-profit series: starting from the
accumulator (the `-initialInvestment` baseline), each month pushes
`accumulator + profit`. -/
def cumFrom : JNum → List JNum → List JNum
  | _, [] => []
  | acc, p :: ps => (jadd acc p) :: cumFrom (jadd acc p) ps

/-- Monthly series generator (`calculateMonthlyData`): 60 months of revenue,
cumulative profit (seeded at `-initialInvestment`) and cash flow. -/
def calculateMonthlyData (powTwelfth : ℚ → JNum) (inputs : FinancialInputs)
    (cogsPerUnit : JNum) : MonthlyData :=
  { revenue := (List.range 60).map (monthlyRevenueAt powTwelfth inputs)
    cumulativeProfit :=
      cumFrom (.finite (-inputs.initialInvestment))
        ((List.range 60).map (monthlyProfitAt powTwelfth inputs cogsPerUnit))
    cashFlow := (List.range 60).map (monthlyProfitAt powTwelfth inputs cogsPerUnit) }

/-- Marketing attribution calculator (`calculateMarketingMetrics`).  The
`monthlyRevenue` parameter is threaded through exactly as in the source,
which never reads it. -/
def calculateMarketingMetrics (inputs : FinancialInputs)
    (monthlyRevenue : List JNum) (cogsPerUnit : JNum) : MarketingMetrics :=
  let monthlyUnits : ℚ := inputs.unitsSoldYear1 / MONTHS_IN_YEAR
  let totalMonthlyMarketingSpend : ℚ := inputs.marketing.budgetAllocation.totalBudget
  let acquisitionSpend : ℚ :=
    totalMonthlyMarketingSpend * (inputs.marketing.acquisitionPercent / 100)
  let retentionSpend : ℚ := totalMonthlyMarketingSpend - acquisitionSpend
  let profitPerUnit : JNum := jsub (.finite inputs.pricePerUnit) cogsPerUnit
  let targetPoas : ℚ := 1.5
  let potentialPaidSales : JNum :=
    jdiv (.finite (totalMonthlyMarketingSpend * targetPoas)) profitPerUnit
  let paidSales : JNum := jmin (.finite monthlyUnits) potentialPaidSales
  let organicSales : JNum := jmax (.finite 0) (jsub (.finite monthlyUnits) paidSales)
  let organicPercentage : JNum :=
    jmul (jdiv organicSales (.finite monthlyUnits)) (.finite 100)
  let cac : JNum :=
    if jgt0 paidSales then jdiv (.finite acquisitionSpend) paidSales else .finite 0
  let monthlyChurnRate : ℚ := inputs.misc.monthlyChurnRate / 100
  let customerLifespan : JNum :=
    if 0 < monthlyChurnRate then .finite (1 / monthlyChurnRate) else .finite 0
  let revenuePerCustomer : ℚ := inputs.pricePerUnit
  let grossMarginPerCustomer : JNum := jsub (.finite revenuePerCustomer) cogsPerUnit
  let ltv : JNum := jmul grossMarginPerCustomer customerLifespan
  { cac := cac
    ltv := ltv
    monthlyChurn := .finite (monthlyChurnRate * 100)
    organicSales := organicSales
    paidSales := paidSales
    acquisitionSpend := .finite acquisitionSpend
    retentionSpend := .finite retentionSpend
    customerLifespan := customerLifespan
    organicPercentage := organicPercentage }

/-- Yearly unit volume of the annual aggregator:
`unitsSoldYear1 * Math.pow(1 + annualGrowthRate/100, year)`. -/
def yearlyUnitsAt (inputs : FinancialInputs) (year : Nat) : ℚ :=
  inputs.unitsSoldYear1 * (1 + inputs.annualGrowthRate / 100) ^ year

/-- Yearly revenue of the annual aggregator. -/
def yearlyRevenueAt (inputs : FinancialInputs) (year : Nat) : ℚ :=
  yearlyUnitsAt inputs year * inputs.pricePerUnit

/-- Yearly COGS of the annual aggregator. -/
def yearlyCOGSAt (inputs : FinancialInputs) (cogsPerUnit : JNum) (year : Nat) : JNum :=
  jmul (.finite (yearlyUnitsAt inputs year)) cogsPerUnit

/-- Yearly gross profit of the annual aggregator: revenue − COGS − returns. -/
def yearlyGrossProfitAt (inputs : FinancialInputs) (cogsPerUnit : JNum)
    (year : Nat) : JNum :=
  jsub (jsub (.finite (yearlyRevenueAt inputs year))
             (yearlyCOGSAt inputs cogsPerUnit year))
       (.finite (yearlyRevenueAt inputs year *
                 (inputs.misc.returnsRefundsPercent / 100)))

/-- Yearly fixed costs of the annual aggregator: the six operational fields
plus legal and R&D, taken annually. -/
def yearlyFixedCosts (inputs : FinancialInputs) : ℚ :=
  inputs.operational.labor +
  inputs.operational.rentUtilities +
  inputs.operational.officeExpenses +
  inputs.operational.workTools +
  inputs.operational.techFees +
  inputs.operational.travel +
  inputs.misc.legalCompliance +
  inputs.misc.researchDevelopment

/-- Yearly pre-tax profit of the annual aggregator. -/
def yearlyPreTaxProfitAt (inputs : FinancialInputs) (cogsPerUnit : JNum)
    (year : Nat) : JNum :=
  jsub (jsub (jsub (jsub (yearlyGrossProfitAt inputs cogsPerUnit year)
                         (.finite (yearlyRevenueAt inputs year *
                                   (inputs.misc.paymentProcessingFee / 100))))
                   (.finite (yearlyFixedCosts inputs)))
             (.finite (inputs.marketing.budgetAllocation.totalBudget * MONTHS_IN_YEAR)))
       (.finite (monthlySoftwareCosts inputs * MONTHS_IN_YEAR))

/-- Yearly net profit of the annual aggregator: pre-tax profit minus
`max(0, preTax * taxRate%)`. -/
def yearlyNetProfitAt (inputs : FinancialInputs) (cogsPerUnit : JNum)
    (year : Nat) : JNum :=
  let preTax := yearlyPreTaxProfitAt inputs cogsPerUnit year
  jsub preTax (jmax (.finite 0) (jmul preTax (.finite (inputs.misc.taxRate / 100))))

/-- Annual aggregator (`calculateAnnualMetrics`): five yearly snapshots of
revenue, gross profit and net profit. -/
def calculateAnnualMetrics (inputs : FinancialInputs) (cogsPerUnit : JNum) :
    AnnualMetrics :=
  { revenue := (List.range 5).map (fun year => .finite (yearlyRevenueAt inputs year))
    grossProfit := (List.range 5).map (yearlyGrossProfitAt inputs cogsPerUnit)
    netProfit := (List.range 5).map (yearlyNetProfitAt inputs cogsPerUnit) }

/-- Break-even locator helper: model of JavaScript `Array.prototype.findIndex`,
with the `-1` sentinel rendered as `none`. -/
def jsFindIndex (p : JNum → Bool) : List JNum → Option Nat
  | [] => none
  | x :: xs => if p x then some 0 else (jsFindIndex p xs).map (· + 1)

/-- Break-even locator (`calculateBreakEvenMonth`): first index of the
cumulative profit series with `profit >= 0`, returned 1-based, saturating to
60 when no such index exists.  The `initialInvestment` parameter is accepted
and ignored exactly as in the source. -/
def calculateBreakEvenMonth (initialInvestment : ℚ)
    (cumulativeProfit : List JNum) : Nat :=
  match jsFindIndex (fun profit => jge0 profit) cumulativeProfit with
  | none => 60
  | some breakEvenIndex => breakEvenIndex + 1

/-- Expense breakdown allocator (`calculateExpenseBreakdown`). -/
def calculateExpenseBreakdown (inputs : FinancialInputs) (yearlyRevenue : ℚ)
    (yearlyTotalCOGS : JNum) : ExpenseBreakdown :=
  let yearlyUnits : ℚ := inputs.unitsSoldYear1
  let productMaterials : ℚ := calculateProductMaterialsPerUnit inputs * yearlyUnits
  let shipping : JNum :=
    jmul (calculateShippingCostsPerUnit inputs) (.finite yearlyUnits)
  let marketing : ℚ := inputs.marketing.budgetAllocation.totalBudget * MONTHS_IN_YEAR
  let operational : ℚ :=
    inputs.operational.labor +
    inputs.operational.rentUtilities +
    inputs.operational.officeExpenses +
    inputs.operational.workTools +
    inputs.operational.techFees +
    inputs.operational.travel +
    monthlySoftwareCosts inputs * MONTHS_IN_YEAR
  let processingFees : ℚ := yearlyRevenue * (inputs.misc.paymentProcessingFee / 100)
  let returnsRefunds : ℚ := yearlyRevenue * (inputs.misc.returnsRefundsPercent / 100)
  let preTaxProfit : JNum :=
    jsub (jsub (jsub (jsub (jsub (.finite yearlyRevenue) yearlyTotalCOGS)
                           (.finite marketing))
                     (.finite operational))
               (.finite processingFees))
         (.finite returnsRefunds)
  let taxes : JNum :=
    jmax (.finite 0) (jmul preTaxProfit (.finite (inputs.misc.taxRate / 100)))
  let misc : JNum :=
    jadd (jadd (jadd (jadd taxes (.finite processingFees))
                     (.finite returnsRefunds))
               (.finite inputs.misc.legalCompliance))
         (.finite inputs.misc.researchDevelopment)
  { productMaterials := .finite productMaterials
    shipping := shipping
    marketing := .finite marketing
    operational := .finite operational
    misc := misc }

/-- The engine entry point (`calculateMetrics`). -/
def calculateMetrics (powTwelfth : ℚ → JNum) (inputs : FinancialInputs) :
    CalculatedMetrics :=
  let cogsPerUnit : JNum := cogsPerUnitOf inputs
  let yearOneRevenue : ℚ := inputs.pricePerUnit * inputs.unitsSoldYear1
  let yearOneCOGS : JNum := jmul cogsPerUnit (.finite inputs.unitsSoldYear1)
  let yearOneReturns : ℚ :=
    yearOneRevenue * (inputs.misc.returnsRefundsPercent / 100)
  let yearOneGrossProfit : JNum :=
    jsub (jsub (.finite yearOneRevenue) yearOneCOGS) (.finite yearOneReturns)
  let monthlyData := calculateMonthlyData powTwelfth inputs cogsPerUnit
  let marketingMetrics :=
    calculateMarketingMetrics inputs monthlyData.revenue cogsPerUnit
  let annualMetrics := calculateAnnualMetrics inputs cogsPerUnit
  let expenseBreakdown :=
    calculateExpenseBreakdown inputs yearOneRevenue yearOneCOGS
  let breakEvenMonth :=
    calculateBreakEvenMonth inputs.initialInvestment monthlyData.cumulativeProfit
  let grossMargin : JNum :=
    jmul (jdiv yearOneGrossProfit (.finite yearOneRevenue)) (.finite 100)
  let netMargin : JNum :=
    jmul (jdiv (annualMetrics.netProfit.getD 0 JNum.nan) (.finite yearOneRevenue))
         (.finite 100)
  { revenue := annualMetrics.revenue
    grossProfit := annualMetrics.grossProfit
    netProfit := annualMetrics.netProfit
    breakEvenMonth := breakEvenMonth
    monthlyData := monthlyData
    cogs := { perUnit := cogsPerUnit, total := yearOneCOGS }
    marketingMetrics := marketingMetrics
    ltvCacRatio :=
      if jgt0 marketingMetrics.cac then jdiv marketingMetrics.ltv marketingMetrics.cac
      else .finite 0
    margins :=
      { gross := if jisNaN grossMargin then .finite 0 else grossMargin
        net := if jisNaN netMargin then .finite 0 else netMargin }
    expenseBreakdown := expenseBreakdown }

/-! ## Concrete assumption sets used to evaluate the engine -/

/-- A zero traffic-source allocation. -/
def zeroAlloc : TrafficSourceAllocation := ⟨0, 0, 0⟩

/-- All five channels zeroed. -/
def zeroSources : TrafficSources := ⟨zeroAlloc, zeroAlloc, zeroAlloc, zeroAlloc, zeroAlloc⟩

/-- The all-zero assumption set (third-party fulfillment, empty custom lists). -/
def zeroInputs : FinancialInputs :=
  { modelName := ""
    modelDescription := ""
    pricePerUnit := 0
    unitsSoldYear1 := 0
    annualGrowthRate := 0
    initialInvestment := 0
    costs := ⟨0, 0, 0, 0, 0, 0, 0, []⟩
    marketing := ⟨0, 0, 0, 0, ⟨0, zeroSources⟩⟩
    operational := ⟨0, 0, 0, 0, 0, 0, ⟨0, 0, 0, 0, []⟩⟩
    shipping := ⟨.thirdParty, ⟨0, 0, 0, 0⟩, ⟨0, 0, 0⟩, ⟨0, 0, 0⟩⟩
    misc := ⟨0, 0, 0, 0, 0, 0⟩
    darkMode := false }

/-- A concrete interpretation of `Math.pow(·, 1/12)`, used only to close
theorems whose conclusion does not depend on the interpretation. -/
def pfId : ℚ → JNum := fun q => JNum.finite q

/-- The marketing-metrics field of the engine output depends only on the
inputs and the resolved COGS per unit: the monthly revenue series argument is
never read, so it can be replaced by the empty list. -/
theorem calculateMetrics_marketingMetrics (powTwelfth : ℚ → JNum)
    (inputs : FinancialInputs) :
    (calculateMetrics powTwelfth inputs).marketingMetrics =
      calculateMarketingMetrics inputs [] (cogsPerUnitOf inputs) := rfl

/-- C1: the claim "every division-by-zero or NaN-producing path is guarded
to yield 0; no field of the returned `CalculatedMetrics` is NaN or Infinity"
fails on the code: already at the all-zero assumption set the engine divides
`0 * 1.5` by the zero profit-per-unit with no guard, so
`marketingMetrics.paidSales` (via `Math.min(0, 0/0)`) is NaN — for every
interpretation of the monthly compounding power. -/
theorem paidSales_nan_at_zeroInputs (powTwelfth : ℚ → JNum) :
    (calculateMetrics powTwelfth zeroInputs).marketingMetrics.paidSales =
      JNum.nan := by
  rw [calculateMetrics_marketingMetrics]
  norm_num [calculateMarketingMetrics, cogsPerUnitOf, calculateShippingCostsPerUnit,
    calculateProductMaterialsPerUnit, MONTHS_IN_YEAR, jadd, jsub, jneg, jmul,
    jdiv, jmin, jmax, jgt0, jge0, jisNaN, zeroAlloc, zeroSources, zeroInputs]

/-- The assumption set of C2's failing input: self-fulfillment, zero year-1
volume, warehouse rent 1200, in-house labor 2 and postage 3. -/
def inHouseZeroVolumeInputs : FinancialInputs :=
  { zeroInputs with
    shipping := { zeroInputs.shipping with
                  fulfillmentType := .inHouse
                  inHouse := ⟨2, 3, 1200⟩ } }

/-- C2: the claim "with self-fulfillment and year-1 volume 0 the
warehouse-rent term is treated as 0, so the per-unit outbound cost equals
labor + postage" fails on the code: `warehouseRent / monthlyUnits` is
unguarded, so the per-unit shipping cost is Infinity, not 2 + 3 = 5. -/
theorem shipping_inf_at_zeroVolume :
    calculateShippingCostsPerUnit inHouseZeroVolumeInputs = JNum.inf ∧
    JNum.inf ≠ JNum.finite 5 := by
  refine ⟨?_, by simp⟩
  norm_num [calculateMarketingMetrics, cogsPerUnitOf, calculateShippingCostsPerUnit,
    calculateProductMaterialsPerUnit, MONTHS_IN_YEAR, jadd, jsub, jneg, jmul,
    jdiv, jmin, jmax, jgt0, jge0, jisNaN, zeroAlloc, zeroSources, zeroInputs, inHouseZeroVolumeInputs]

/-- The assumption set of C3's failing input: profit per unit 0 (price 0,
all costs 0), monthly budget 100, acquisition split 50%, year-1 volume 1200
(monthly target 100). -/
def zeroProfitInputs : FinancialInputs :=
  { zeroInputs with
    unitsSoldYear1 := 1200
    marketing := { zeroInputs.marketing with
                   acquisitionPercent := 50
                   budgetAllocation := ⟨100, zeroSources⟩ } }

/-- C3: the claim "profit per unit ≤ 0 implies paidSales = 0, CAC = 0 and
organicSales = the full monthly target" fails on the code: with
profit-per-unit exactly 0 the unguarded division gives
`potentialPaidSales = 150/0 = Infinity`, so `paidSales = min(100, ∞) = 100`,
`CAC = 50/100 = 1/2` and `organicSales = 0` instead of 0, 0 and 100. -/
theorem marketing_unguarded_at_zeroProfit (powTwelfth : ℚ → JNum) :
    (calculateMetrics powTwelfth zeroProfitInputs).marketingMetrics.paidSales =
        JNum.finite 100 ∧
    (calculateMetrics powTwelfth zeroProfitInputs).marketingMetrics.cac =
        JNum.finite (1 / 2) ∧
    (calculateMetrics powTwelfth zeroProfitInputs).marketingMetrics.organicSales =
        JNum.finite 0 := by
  rw [calculateMetrics_marketingMetrics]
  norm_num [calculateMarketingMetrics, cogsPerUnitOf, calculateShippingCostsPerUnit,
    calculateProductMaterialsPerUnit, MONTHS_IN_YEAR, jadd, jsub, jneg, jmul,
    jdiv, jmin, jmax, jgt0, jge0, jisNaN, zeroAlloc, zeroSources, zeroInputs, zeroProfitInputs]

/-- The assumption set of C4's failing input: year-1 volume 0 with a positive
price. -/
def zeroVolumeInputs : FinancialInputs := { zeroInputs with pricePerUnit := 10 }

/-- C4: the claim "with year-1 volume 0 the metrics derived from the monthly
unit target — organicPercentage, paidSales, organicSales — all resolve to 0,
never NaN" fails on the code: `organicSales / monthlyUnits` is unguarded, so
`organicPercentage = (0/0) * 100` is NaN. -/
theorem organicPercentage_nan_at_zeroVolume (powTwelfth : ℚ → JNum) :
    (calculateMetrics powTwelfth zeroVolumeInputs).marketingMetrics.organicPercentage =
      JNum.nan := by
  rw [calculateMetrics_marketingMetrics]
  norm_num [calculateMarketingMetrics, cogsPerUnitOf, calculateShippingCostsPerUnit,
    calculateProductMaterialsPerUnit, MONTHS_IN_YEAR, jadd, jsub, jneg, jmul,
    jdiv, jmin, jmax, jgt0, jge0, jisNaN, zeroAlloc, zeroSources, zeroInputs, zeroVolumeInputs]

/-- The assumption set of C8's failing input: churn 0, self-fulfillment with
year-1 volume 0 and warehouse rent 1 (so COGS per unit is Infinity). -/
def churnZeroInfCogsInputs : FinancialInputs :=
  { zeroInputs with
    shipping := { zeroInputs.shipping with
                  fulfillmentType := .inHouse
                  inHouse := ⟨0, 0, 1⟩ } }

/-- C8: the claim "monthlyChurnRate = 0 implies customerLifespan = 0 and
LTV = 0" fails on the code: the lifespan is 0 as claimed, but when the
unguarded shipping division makes COGS per unit Infinity the LTV is
`-Infinity * 0 = NaN`, not 0. -/
theorem ltv_nan_at_churnZero (powTwelfth : ℚ → JNum) :
    churnZeroInfCogsInputs.misc.monthlyChurnRate = 0 ∧
    (calculateMetrics powTwelfth churnZeroInfCogsInputs).marketingMetrics.customerLifespan =
        JNum.finite 0 ∧
    (calculateMetrics powTwelfth churnZeroInfCogsInputs).marketingMetrics.ltv =
        JNum.nan := by
  rw [calculateMetrics_marketingMetrics]
  norm_num [calculateMarketingMetrics, cogsPerUnitOf, calculateShippingCostsPerUnit,
    calculateProductMaterialsPerUnit, MONTHS_IN_YEAR, jadd, jsub, jneg, jmul,
    jdiv, jmin, jmax, jgt0, jge0, jisNaN, zeroAlloc, zeroSources, zeroInputs, churnZeroInfCogsInputs]

/-! ## Break-even locator: specification and monotonicity -/

/-- A successful `jsFindIndex` returns an index inside the list. -/
theorem jsFindIndex_lt_length {p : JNum → Bool} :
    ∀ {l : List JNum} {j : Nat}, jsFindIndex p l = some j → j < l.length := by
  intro l
  induction l with
  | nil => intro j h; simp [jsFindIndex] at h
  | cons x xs ih =>
    intro j h
    simp only [jsFindIndex] at h
    by_cases hx : p x = true
    · rw [if_pos hx] at h
      obtain rfl : (0 : Nat) = j := by simpa using h
      simp
    · rw [if_neg hx] at h
      rcases Option.map_eq_some'.mp h with ⟨j', hj', rfl⟩
      have := ih hj'
      simp only [List.length_cons]
      omega

/-- `jsFindIndex` returns the first index satisfying the predicate. -/
theorem jsFindIndex_first {p : JNum → Bool} :
    ∀ (l : List JNum) (i : Nat) (hi : i < l.length),
      p (l.get ⟨i, hi⟩) = true →
      (∀ j (hj : j < i), p (l.get ⟨j, hj.trans hi⟩) = false) →
      jsFindIndex p l = some i := by
  intro l
  induction l with
  | nil => intro i hi; simp at hi
  | cons x xs ih =>
    intro i hi hp hfirst
    cases i with
    | zero =>
      have hx : p x = true := by simpa using hp
      simp [jsFindIndex, hx]
    | succ i =>
      have hx : p x = false := by simpa using hfirst 0 (Nat.succ_pos i)
      have hi' : i < xs.length := by
        simp only [List.length_cons] at hi
        omega
      have hp' : p (xs.get ⟨i, hi'⟩) = true := by simpa using hp
      have hfirst' : ∀ j (hj : j < i), p (xs.get ⟨j, hj.trans hi'⟩) = false := by
        intro j hj
        simpa using hfirst (j + 1) (Nat.succ_lt_succ hj)
      simp [jsFindIndex, hx, ih i hi' hp' hfirst']

/-- `jsFindIndex` returns `none` when no element satisfies the predicate. -/
theorem jsFindIndex_none {p : JNum → Bool} :
    ∀ (l : List JNum), (∀ i (hi : i < l.length), p (l.get ⟨i, hi⟩) = false) →
      jsFindIndex p l = none := by
  intro l
  induction l with
  | nil => intro _; rfl
  | cons x xs ih =>
    intro h
    have hx : p x = false := by simpa using h 0 (by simp)
    have h' : ∀ i (hi : i < xs.length), p (xs.get ⟨i, hi⟩) = false := by
      intro i hi
      simpa using h (i + 1) (by simp only [List.length_cons]; omega)
    simp [jsFindIndex, hx, ih h']

/-- Unfolding equation of the break-even locator on a failed scan. -/
theorem calculateBreakEvenMonth_eq_none {x : ℚ} {c : List JNum}
    (h : jsFindIndex jge0 c = none) : calculateBreakEvenMonth x c = 60 := by
  unfold calculateBreakEvenMonth
  rw [show jsFindIndex (fun profit => jge0 profit) c = none from h]

/-- Unfolding equation of the break-even locator on a successful scan. -/
theorem calculateBreakEvenMonth_eq_some {x : ℚ} {c : List JNum} {i : Nat}
    (h : jsFindIndex jge0 c = some i) : calculateBreakEvenMonth x c = i + 1 := by
  unfold calculateBreakEvenMonth
  rw [show jsFindIndex (fun profit => jge0 profit) c = some i from h]

/-- C5: on every 60-element cumulative-profit series the break-even locator
returns `i + 1` for the first index `i` whose cumulative profit satisfies
`>= 0`, and returns the saturating sentinel 60 when no index does. -/
theorem calculateBreakEvenMonth_spec (I : ℚ) (c : List JNum)
    (hlen : c.length = 60) :
    (∀ i (hi : i < c.length), jge0 (c.get ⟨i, hi⟩) = true →
      (∀ j (hj : j < i), jge0 (c.get ⟨j, hj.trans hi⟩) = false) →
      calculateBreakEvenMonth I c = i + 1) ∧
    ((∀ i (hi : i < c.length), jge0 (c.get ⟨i, hi⟩) = false) →
      calculateBreakEvenMonth I c = 60) := by
  constructor
  · intro i hi hp hfirst
    exact calculateBreakEvenMonth_eq_some (jsFindIndex_first c i hi hp hfirst)
  · intro hall
    exact calculateBreakEvenMonth_eq_none (jsFindIndex_none c hall)

/-- Witness for C5: a series that never reaches 0 yields the sentinel 60. -/
theorem calculateBreakEvenMonth_spec_witness :
    calculateBreakEvenMonth 5 (List.replicate 60 JNum.neginf) = 60 :=
  (calculateBreakEvenMonth_spec 5 (List.replicate 60 JNum.neginf)
      (by simp)).2 (by intro i hi; rw [List.get_replicate]; rfl)

/-- Domination order used for break-even monotonicity: both sides are the
same special value, or both finite and ordered. -/
def jdom (a b : JNum) : Prop :=
  a = b ∨ ∃ x y, a = JNum.finite x ∧ b = JNum.finite y ∧ x ≤ y

/-- Adding the same month's profit to dominated accumulators preserves
domination. -/
theorem jdom_jadd (p : JNum) {a b : JNum} (h : jdom a b) :
    jdom (jadd a p) (jadd b p) := by
  rcases h with rfl | ⟨x, y, rfl, rfl, hxy⟩
  · exact Or.inl rfl
  · cases p with
    | finite r => exact Or.inr ⟨x + r, y + r, rfl, rfl, by linarith⟩
    | inf => exact Or.inl rfl
    | neginf => exact Or.inl rfl
    | nan => exact Or.inl rfl

/-- A dominated value that clears the `>= 0` test forces the dominating value
to clear it as well. -/
theorem jdom_jge0 {a b : JNum} (h : jdom a b) (ha : jge0 a = true) :
    jge0 b = true := by
  rcases h with rfl | ⟨x, y, rfl, rfl, hxy⟩
  · exact ha
  · simp only [jge0, decide_eq_true_eq] at ha ⊢
    linarith

/-- Accumulating the same cash-flow list from dominated seeds yields pointwise
dominated cumulative series. -/
theorem cumFrom_jdom (ps : List JNum) : ∀ {a b : JNum}, jdom a b →
    List.Forall₂ jdom (cumFrom a ps) (cumFrom b ps) := by
  induction ps with
  | nil => intro a b _; exact List.Forall₂.nil
  | cons p ps ih =>
    intro a b h
    exact List.Forall₂.cons (jdom_jadd p h) (ih (jdom_jadd p h))

/-- If the dominated series finds a non-negative entry at index `j`, the
dominating series finds one at some index `k ≤ j`. -/
theorem jsFindIndex_jdom : ∀ {l₁ l₂ : List JNum}, List.Forall₂ jdom l₁ l₂ →
    ∀ {j : Nat}, jsFindIndex jge0 l₁ = some j →
    ∃ k, k ≤ j ∧ jsFindIndex jge0 l₂ = some k := by
  intro l₁ l₂ hf
  induction hf with
  | nil => intro j h; simp [jsFindIndex] at h
  | @cons a b as bs hab htl ih =>
    intro j h
    simp only [jsFindIndex] at h ⊢
    by_cases ha : jge0 a = true
    · rw [if_pos ha] at h
      obtain rfl : (0 : Nat) = j := by simpa using h
      exact ⟨0, Nat.le_refl 0, by rw [if_pos (jdom_jge0 hab ha)]⟩
    · rw [if_neg ha] at h
      rcases Option.map_eq_some'.mp h with ⟨j', hj', rfl⟩
      rcases ih hj' with ⟨k', hk'le, hk'⟩
      by_cases hb : jge0 b = true
      · exact ⟨0, Nat.zero_le _, by rw [if_pos hb]⟩
      · refine ⟨k' + 1, Nat.succ_le_succ hk'le, ?_⟩
        rw [if_neg hb, hk']
        rfl

/-- Length of the accumulated cumulative series. -/
theorem cumFrom_length : ∀ (ps : List JNum) (a : JNum),
    (cumFrom a ps).length = ps.length := by
  intro ps
  induction ps with
  | nil => intro a; rfl
  | cons p ps ih => intro a; simp [cumFrom, ih]

/-- Core monotonicity of the break-even locator: lowering the seed of the
cumulative series (a larger initial investment) never lowers the returned
month, over any cash-flow list of at most 60 months. -/
theorem breakEven_mono_core (CF : List JNum) (hlen : CF.length ≤ 60)
    (x₁ x₂ q₁ q₂ : ℚ) (h : q₂ ≤ q₁) :
    calculateBreakEvenMonth x₁ (cumFrom (.finite q₁) CF) ≤
    calculateBreakEvenMonth x₂ (cumFrom (.finite q₂) CF) := by
  have hdom : List.Forall₂ jdom (cumFrom (.finite q₂) CF) (cumFrom (.finite q₁) CF) :=
    cumFrom_jdom CF (Or.inr ⟨q₂, q₁, rfl, rfl, h⟩)
  cases h₂ : jsFindIndex jge0 (cumFrom (.finite q₂) CF) with
  | none =>
    rw [calculateBreakEvenMonth_eq_none h₂]
    cases h₁ : jsFindIndex jge0 (cumFrom (.finite q₁) CF) with
    | none => rw [calculateBreakEvenMonth_eq_none h₁]
    | some k =>
      rw [calculateBreakEvenMonth_eq_some h₁]
      have hk := jsFindIndex_lt_length h₁
      rw [cumFrom_length] at hk
      omega
  | some j =>
    rcases jsFindIndex_jdom hdom h₂ with ⟨k, hkj, hk⟩
    rw [calculateBreakEvenMonth_eq_some h₂, calculateBreakEvenMonth_eq_some hk]
    omega

/-- C6: increasing the initial investment while holding every other
assumption fixed never decreases the break-even month returned by the
engine, for every interpretation of the monthly compounding power. -/
theorem breakEvenMonth_monotone_investment (powTwelfth : ℚ → JNum)
    (inputs : FinancialInputs) (I₁ I₂ : ℚ) (h : I₁ ≤ I₂) :
    (calculateMetrics powTwelfth { inputs with initialInvestment := I₁ }).breakEvenMonth ≤
    (calculateMetrics powTwelfth { inputs with initialInvestment := I₂ }).breakEvenMonth := by
  have e₁ : (calculateMetrics powTwelfth { inputs with initialInvestment := I₁ }).breakEvenMonth =
      calculateBreakEvenMonth I₁ (cumFrom (.finite (-I₁))
        ((List.range 60).map (monthlyProfitAt powTwelfth inputs (cogsPerUnitOf inputs)))) := rfl
  have e₂ : (calculateMetrics powTwelfth { inputs with initialInvestment := I₂ }).breakEvenMonth =
      calculateBreakEvenMonth I₂ (cumFrom (.finite (-I₂))
        ((List.range 60).map (monthlyProfitAt powTwelfth inputs (cogsPerUnitOf inputs)))) := rfl
  rw [e₁, e₂]
  exact breakEven_mono_core _ (by simp) I₁ I₂ (-I₁) (-I₂) (by linarith)

/-- Witness for C6 at a concrete pair of investments. -/
theorem breakEvenMonth_monotone_investment_witness :
    (0 : ℚ) ≤ 1 ∧
    (calculateMetrics pfId { zeroInputs with initialInvestment := 0 }).breakEvenMonth ≤
    (calculateMetrics pfId { zeroInputs with initialInvestment := 1 }).breakEvenMonth :=
  ⟨by norm_num, breakEvenMonth_monotone_investment pfId zeroInputs 0 1 (by norm_num)⟩

/-! ## Marketing attribution under a zero budget (C7) -/

/-- The assumption set refuting C7's second implicit requirement: budget 0
with year-1 volume 12 and zero profit per unit. -/
def zeroProfitZeroBudgetInputs : FinancialInputs :=
  { zeroInputs with unitsSoldYear1 := 12 }

/-- C7 as stated is false: at year-1 volume 0 (budget 0) the organic
percentage is NaN rather than 100, and at zero profit per unit (budget 0)
the paid sales are NaN rather than 0. -/
theorem marketing_zeroBudget_counterexample :
    (zeroVolumeInputs.marketing.budgetAllocation.totalBudget = 0 ∧
      (calculateMetrics pfId zeroVolumeInputs).marketingMetrics.organicPercentage ≠
        JNum.finite 100) ∧
    (zeroProfitZeroBudgetInputs.marketing.budgetAllocation.totalBudget = 0 ∧
      (calculateMetrics pfId zeroProfitZeroBudgetInputs).marketingMetrics.paidSales ≠
        JNum.finite 0) := by
  rw [calculateMetrics_marketingMetrics, calculateMetrics_marketingMetrics]
  have h₁ : (calculateMarketingMetrics zeroVolumeInputs []
      (cogsPerUnitOf zeroVolumeInputs)).organicPercentage = JNum.nan := by
    norm_num [calculateMarketingMetrics, cogsPerUnitOf, calculateShippingCostsPerUnit,
      calculateProductMaterialsPerUnit, MONTHS_IN_YEAR, jadd, jsub, jneg, jmul,
      jdiv, jmin, jmax, jgt0, zeroAlloc, zeroSources, zeroInputs, zeroVolumeInputs]
  have h₂ : (calculateMarketingMetrics zeroProfitZeroBudgetInputs []
      (cogsPerUnitOf zeroProfitZeroBudgetInputs)).paidSales = JNum.nan := by
    norm_num [calculateMarketingMetrics, cogsPerUnitOf, calculateShippingCostsPerUnit,
      calculateProductMaterialsPerUnit, MONTHS_IN_YEAR, jadd, jsub, jneg, jmul,
      jdiv, jmin, jmax, jgt0, zeroAlloc, zeroSources, zeroInputs,
      zeroProfitZeroBudgetInputs]
  exact ⟨⟨rfl, by rw [h₁]; exact fun hEq => JNum.noConfusion hEq⟩,
         ⟨rfl, by rw [h₂]; exact fun hEq => JNum.noConfusion hEq⟩⟩

/-- With a nonzero year-1 volume the shipping resolver never leaves the
finite rationals: both outbound branches are finite and the in-house
warehouse-rent division has a nonzero denominator. -/
theorem calculateShippingCostsPerUnit_finite (inputs : FinancialInputs)
    (hu : inputs.unitsSoldYear1 ≠ 0) :
    ∃ c, calculateShippingCostsPerUnit inputs = JNum.finite c := by
  have h12 : inputs.unitsSoldYear1 / MONTHS_IN_YEAR ≠ 0 := by
    simp [MONTHS_IN_YEAR, div_eq_zero_iff, hu]
  cases hft : inputs.shipping.fulfillmentType with
  | thirdParty =>
    simp only [calculateShippingCostsPerUnit, hft]
    exact ⟨_, rfl⟩
  | inHouse =>
    simp only [calculateShippingCostsPerUnit, hft, jdiv]
    rw [if_neg h12]
    exact ⟨_, rfl⟩

/-- C7 amended: for every assumption set with total monthly marketing budget
0, **positive year-1 volume and nonzero profit per unit**, the marketing
attribution yields acquisitionSpend 0, paidSales 0, organicSales equal to
the monthly unit target (year-1 volume ÷ 12) and organicPercentage 100. -/
theorem marketing_zeroBudget_amended (powTwelfth : ℚ → JNum)
    (inputs : FinancialInputs)
    (hb : inputs.marketing.budgetAllocation.totalBudget = 0)
    (hu : 0 < inputs.unitsSoldYear1)
    (hp : jsub (.finite inputs.pricePerUnit) (cogsPerUnitOf inputs) ≠ JNum.finite 0) :
    (calculateMetrics powTwelfth inputs).marketingMetrics.acquisitionSpend =
        JNum.finite 0 ∧
    (calculateMetrics powTwelfth inputs).marketingMetrics.paidSales =
        JNum.finite 0 ∧
    (calculateMetrics powTwelfth inputs).marketingMetrics.organicSales =
        JNum.finite (inputs.unitsSoldYear1 / 12) ∧
    (calculateMetrics powTwelfth inputs).marketingMetrics.organicPercentage =
        JNum.finite 100 := by
  rw [calculateMetrics_marketingMetrics]
  obtain ⟨c, hc⟩ := calculateShippingCostsPerUnit_finite inputs (ne_of_gt hu)
  have hcogs : cogsPerUnitOf inputs =
      JNum.finite (calculateProductMaterialsPerUnit inputs + c) := by
    rw [cogsPerUnitOf, hc]
    exact rfl
  have hpd : inputs.pricePerUnit + -(calculateProductMaterialsPerUnit inputs + c) ≠ 0 := by
    intro h0
    apply hp
    rw [hcogs]
    show JNum.finite (inputs.pricePerUnit + -(calculateProductMaterialsPerUnit inputs + c)) =
      JNum.finite 0
    rw [h0]
  have hu12 : 0 < inputs.unitsSoldYear1 / 12 := by positivity
  have hu12ne : inputs.unitsSoldYear1 / 12 ≠ 0 := ne_of_gt hu12
  have hmin : min (inputs.unitsSoldYear1 / 12) 0 = 0 := min_eq_right hu12.le
  have hmax : max 0 (inputs.unitsSoldYear1 / 12) = inputs.unitsSoldYear1 / 12 :=
    max_eq_right hu12.le
  have hpd' : inputs.pricePerUnit +
      (-c + -calculateProductMaterialsPerUnit inputs) ≠ 0 := by
    intro h0
    exact hpd (by linarith)
  refine ⟨?_, ?_, ?_, ?_⟩ <;>
    simp [calculateMarketingMetrics, MONTHS_IN_YEAR, hb, hcogs, jsub, jneg, jadd,
      jdiv, jmin, jmax, jmul, hpd', hu12ne, hmin, hmax, div_self hu12ne]

/-- Witness for the amended C7 at a concrete assumption set (budget 0,
volume 12, price 10, zero costs). -/
theorem marketing_zeroBudget_amended_witness :
    ({ zeroInputs with pricePerUnit := 10, unitsSoldYear1 := 12 } :
        FinancialInputs).marketing.budgetAllocation.totalBudget = 0 ∧
    (0 : ℚ) < 12 ∧
    jsub (.finite (10 : ℚ))
        (cogsPerUnitOf { zeroInputs with pricePerUnit := 10, unitsSoldYear1 := 12 }) ≠
      JNum.finite 0 ∧
    (calculateMetrics pfId
        { zeroInputs with pricePerUnit := 10, unitsSoldYear1 := 12 }).marketingMetrics.paidSales =
      JNum.finite 0 := by
  refine ⟨rfl, by norm_num, ?hp, ?_⟩
  case hp =>
    norm_num [cogsPerUnitOf, calculateShippingCostsPerUnit,
      calculateProductMaterialsPerUnit, MONTHS_IN_YEAR, jadd, jsub, jneg, jdiv,
      zeroAlloc, zeroSources, zeroInputs]
  · exact (marketing_zeroBudget_amended pfId
      { zeroInputs with pricePerUnit := 10, unitsSoldYear1 := 12 } rfl (by norm_num)
      (by norm_num [cogsPerUnitOf, calculateShippingCostsPerUnit,
        calculateProductMaterialsPerUnit, MONTHS_IN_YEAR, jadd, jsub, jneg, jdiv,
        zeroAlloc, zeroSources, zeroInputs])).2.1

/-! ## The annual aggregator scenario (C9) and engine input-sensitivity (C10) -/

/-- The C9 scenario assumption set: price 65, year-1 volume 8000, growth 50%,
initial investment 100000, the seven per-unit cost fields free, no custom
costs, all shipping, marketing, operational and miscellaneous inputs zero. -/
def scenarioInputs (b₁ b₂ b₃ b₄ b₅ b₆ b₇ : ℚ) : FinancialInputs :=
  { zeroInputs with
    pricePerUnit := 65
    unitsSoldYear1 := 8000
    annualGrowthRate := 50
    initialInvestment := 100000
    costs := ⟨b₁, b₂, b₃, b₄, b₅, b₆, b₇, []⟩ }

/-- C9: in the scenario with the seven per-unit cost fields summing to 15,
the year-0 annual aggregates are 8000 units, revenue 520000, COGS per unit
15, yearly COGS 120000 and gross profit 400000. -/
theorem annual_scenario_values (b₁ b₂ b₃ b₄ b₅ b₆ b₇ : ℚ)
    (hsum : b₁ + b₂ + b₃ + b₄ + b₅ + b₆ + b₇ = 15) :
    yearlyUnitsAt (scenarioInputs b₁ b₂ b₃ b₄ b₅ b₆ b₇) 0 = 8000 ∧
    yearlyRevenueAt (scenarioInputs b₁ b₂ b₃ b₄ b₅ b₆ b₇) 0 = 520000 ∧
    cogsPerUnitOf (scenarioInputs b₁ b₂ b₃ b₄ b₅ b₆ b₇) = JNum.finite 15 ∧
    yearlyCOGSAt (scenarioInputs b₁ b₂ b₃ b₄ b₅ b₆ b₇)
        (cogsPerUnitOf (scenarioInputs b₁ b₂ b₃ b₄ b₅ b₆ b₇)) 0 =
      JNum.finite 120000 ∧
    yearlyGrossProfitAt (scenarioInputs b₁ b₂ b₃ b₄ b₅ b₆ b₇)
        (cogsPerUnitOf (scenarioInputs b₁ b₂ b₃ b₄ b₅ b₆ b₇)) 0 =
      JNum.finite 400000 := by
  have hm : calculateProductMaterialsPerUnit (scenarioInputs b₁ b₂ b₃ b₄ b₅ b₆ b₇) =
      15 := by
    show b₁ + b₂ + b₃ + b₄ + b₅ + b₆ + b₇ +
      List.foldl (fun sum cost => sum + cost.amount) 0 ([] : List CostItem) = 15
    simp only [List.foldl_nil]
    linarith
  have hship : calculateShippingCostsPerUnit (scenarioInputs b₁ b₂ b₃ b₄ b₅ b₆ b₇) =
      JNum.finite 0 := by
    norm_num [calculateShippingCostsPerUnit, MONTHS_IN_YEAR, jadd, jdiv,
      scenarioInputs, zeroInputs]
  have hcogs : cogsPerUnitOf (scenarioInputs b₁ b₂ b₃ b₄ b₅ b₆ b₇) =
      JNum.finite 15 := by
    simp only [cogsPerUnitOf]
    rw [hm, hship]
    norm_num [jadd]
  have hunits : yearlyUnitsAt (scenarioInputs b₁ b₂ b₃ b₄ b₅ b₆ b₇) 0 = 8000 := by
    norm_num [yearlyUnitsAt, scenarioInputs, zeroInputs]
  have hrev : yearlyRevenueAt (scenarioInputs b₁ b₂ b₃ b₄ b₅ b₆ b₇) 0 = 520000 := by
    simp only [yearlyRevenueAt]
    rw [hunits]
    norm_num [scenarioInputs, zeroInputs]
  refine ⟨hunits, hrev, hcogs, ?_, ?_⟩
  · simp only [yearlyCOGSAt]
    rw [hunits, hcogs]
    norm_num [jmul]
  · simp only [yearlyGrossProfitAt, yearlyCOGSAt]
    rw [hunits, hcogs, hrev]
    norm_num [jmul, jsub, jneg, jadd, scenarioInputs, zeroInputs]

/-- Witness for C9 with the seven cost fields instantiated to 15 and six
zeros. -/
theorem annual_scenario_values_witness :
    (15 : ℚ) + 0 + 0 + 0 + 0 + 0 + 0 = 15 ∧
    yearlyGrossProfitAt (scenarioInputs 15 0 0 0 0 0 0)
        (cogsPerUnitOf (scenarioInputs 15 0 0 0 0 0 0)) 0 =
      JNum.finite 400000 :=
  ⟨by norm_num, (annual_scenario_values 15 0 0 0 0 0 0 (by norm_num)).2.2.2.2⟩

/-- C10: the engine never reads the per-channel traffic-source allocations,
the legacy marketing budget fields (`paidAds`, `influencerBudget`,
`contentBudget`), the model name and description, or the dark-mode flag:
replacing them arbitrarily leaves the computed metrics unchanged. -/
theorem calculateMetrics_ignores_unread_fields (powTwelfth : ℚ → JNum)
    (inputs : FinancialInputs) (nm ds : String) (pa ib cb : ℚ)
    (src : TrafficSources) (dm : Bool) :
    calculateMetrics powTwelfth
      { inputs with
        modelName := nm
        modelDescription := ds
        darkMode := dm
        marketing := { inputs.marketing with
                       paidAds := pa
                       influencerBudget := ib
                       contentBudget := cb
                       budgetAllocation := { inputs.marketing.budgetAllocation with
                                             sources := src } } } =
      calculateMetrics powTwelfth inputs := rfl
